import Mathlib

/-!
Verification of the TCO (total cost of ownership) analysis scripts.

The development embeds, over exact arithmetic (`ℚ` for the plain cost
pipeline, `ℝ` for the probability formulas that use `exp` and `sqrt`),
the arithmetic core of the repository:

* `CreateTcoTemplate` — the TCO computation of `create_tco_template.py`
  (lines 148-156) and its yearly schedule (lines 201-231);
* `ImprovedTCOAnalyzer` — `calculate_correct_tco` and `analyze_by_year`
  from `tco_analysis_improved.py`;
* `CorrectedTCOAnalyzer` — `calculate_tco` (with its catch-all exception
  handler returning a zero result) and the choice-probability model from
  `tco_analysis_corrected.py`;
* `DetailedTCOAnalyzer` — `calculate_tco` and the sigmoid-with-noise
  probability from `tco_analysis_detailed.py`;
* `EmpiricalBasedTCOModel` — the additive choice-probability model from
  `empirical_based_tco_model.py` (the same formula appears inline in
  `tco_analysis.py`);
* `TestLogisticFunction` — `current_logistic` and `improved_logistic`
  from `test_logistic_function.py`.
-/

/-- `np.clip(x, lo, hi)`: `x` limited to the interval `[lo, hi]`
(numpy returns `hi` when `lo > hi`, matching `min hi (max x lo)`). -/
def clip {α : Type} [LinearOrder α] (x lo hi : α) : α :=
  min hi (max x lo)

lemma clip_bounds {α : Type} [LinearOrder α] (x lo hi : α) (h : lo ≤ hi) :
    lo ≤ clip x lo hi ∧ clip x lo hi ≤ hi :=
  ⟨le_min h (le_max_right _ _), min_le_left _ _⟩

lemma clip_mono {α : Type} [LinearOrder α] {x y : α} (lo hi : α) (h : x ≤ y) :
    clip x lo hi ≤ clip y lo hi :=
  min_le_min le_rfl (max_le_max h le_rfl)

/-- Propulsion type of a vehicle-category record (`차량유형` column). -/
inductive VehicleType : Type
  | ICE : VehicleType
  | BEV : VehicleType
deriving DecidableEq

/-- One vehicle-category record with all numeric cost fields present
(the columns of the `차량분류` sheet that the TCO arithmetic reads). -/
structure VehicleRecord where
  purchase_cost : ℚ
  subsidy : ℚ
  annual_fuel_cost : ℚ
  annual_maintenance : ℚ
  annual_tax_insurance : ℚ
  annual_depreciation : ℚ
  annual_other_cost : ℚ
  residual_value_rate : ℚ
deriving DecidableEq

namespace CreateTcoTemplate

/-- `ownership_years = 5`, fixed in `create_tco_template.py`. -/
def ownership_years : ℚ := 5

/-- `initial_investment = purchase_cost - subsidy` (line 149). -/
def initial_investment (r : VehicleRecord) : ℚ :=
  r.purchase_cost - r.subsidy

/-- `annual_operating_cost` (lines 150-152): fuel + maintenance +
tax/insurance + depreciation + other. -/
def annual_operating_cost (r : VehicleRecord) : ℚ :=
  r.annual_fuel_cost + r.annual_maintenance + r.annual_tax_insurance +
    r.annual_depreciation + r.annual_other_cost

/-- `total_operating_cost = annual_operating_cost * ownership_years` (line 153). -/
def total_operating_cost (r : VehicleRecord) : ℚ :=
  annual_operating_cost r * ownership_years

/-- `residual_value = purchase_cost * residual_value_rate` (line 154). -/
def residual_value (r : VehicleRecord) : ℚ :=
  r.purchase_cost * r.residual_value_rate

/-- `total_tco = initial_investment + total_operating_cost - residual_value` (line 155). -/
def total_tco (r : VehicleRecord) : ℚ :=
  initial_investment r + total_operating_cost r - residual_value r

/-- `annual_average_tco = total_tco / ownership_years` (line 156). -/
def annual_average_tco (r : VehicleRecord) : ℚ :=
  total_tco r / ownership_years

/-- Per-year cash flow of the `연도별TCO` sheet (lines 204-213): year 1 is
initial investment plus annual operating cost, the final year (5) is the
annual operating cost minus the residual value, intermediate years are the
annual operating cost. -/
def year_tco (r : VehicleRecord) (year : ℕ) : ℚ :=
  if year = 1 then initial_investment r + annual_operating_cost r
  else if year = 5 then annual_operating_cost r - residual_value r
  else annual_operating_cost r

/-- The full yearly schedule, years 1 through 5 (lines 203-228). -/
def yearly_schedule (r : VehicleRecord) : List ℚ :=
  (List.range 5).map (fun i => year_tco r (i + 1))

end CreateTcoTemplate

namespace ImprovedTCOAnalyzer

/-- `initial_investment` of `calculate_correct_tco` (line 30). -/
def initial_investment (r : VehicleRecord) : ℚ :=
  r.purchase_cost - r.subsidy

/-- `annual_operating_cost` of `calculate_correct_tco` (lines 33-35):
all five annual components. -/
def annual_operating_cost (r : VehicleRecord) : ℚ :=
  r.annual_fuel_cost + r.annual_maintenance + r.annual_tax_insurance +
    r.annual_depreciation + r.annual_other_cost

/-- `total_operating_cost` over `ownership_years` years (line 38). -/
def total_operating_cost (years : ℕ) (r : VehicleRecord) : ℚ :=
  annual_operating_cost r * years

/-- `residual_value` (lines 42-45): 40% of the purchase cost for ICE,
25% for BEV. -/
def residual_value (vt : VehicleType) (r : VehicleRecord) : ℚ :=
  r.purchase_cost * (if vt = VehicleType.ICE then 2/5 else 1/4)

/-- `total_tco` (line 48). -/
def total_tco (years : ℕ) (vt : VehicleType) (r : VehicleRecord) : ℚ :=
  initial_investment r + total_operating_cost years r - residual_value vt r

/-- `annual_average_tco` (line 51). -/
def annual_average_tco (years : ℕ) (vt : VehicleType) (r : VehicleRecord) : ℚ :=
  total_tco years vt r / years

/-- Per-year cash flow of `analyze_by_year` (lines 59-65): year 1 is
purchase cost plus annual operating cost minus subsidy; every later year —
including the final one — is the annual operating cost alone. -/
def year_tco (r : VehicleRecord) (year : ℕ) : ℚ :=
  if year = 1 then r.purchase_cost + annual_operating_cost r - r.subsidy
  else annual_operating_cost r

/-- The yearly schedule of `analyze_by_year`, years 1 through `years`. -/
def yearly_schedule (years : ℕ) (r : VehicleRecord) : List ℚ :=
  (List.range years).map (fun i => year_tco r (i + 1))

end ImprovedTCOAnalyzer

/-- One spreadsheet row as seen by `calculate_tco` in
`tco_analysis_corrected.py` / `tco_analysis_detailed.py`: each cost field
may be absent (`none` models an absent column or a null value). The
purchase-cost and subsidy columns are carried along (the template writes
`초기투자비용 = 구매비용 - 보조금`) but `calculate_tco` reads only the
initial-investment column. -/
structure TcoRow where
  purchase_cost : Option ℚ
  subsidy : Option ℚ
  initial_cost : Option ℚ
  annual_fuel : Option ℚ
  annual_maintenance : Option ℚ
  annual_tax_insurance : Option ℚ
  annual_depreciation : Option ℚ
  annual_other : Option ℚ
  residual_rate : Option ℚ
deriving DecidableEq

/-- A row with every field present. -/
def TcoRow.mk_full (pc su ic f m t d o rr : ℚ) : TcoRow :=
  ⟨some pc, some su, some ic, some f, some m, some t, some d, some o, some rr⟩

/-- The dictionary returned by `calculate_tco`. -/
structure TcoResult where
  annual_operating_cost : ℚ
  total_operating_cost : ℚ
  residual_value : ℚ
  total_tco : ℚ
  annual_average_tco : ℚ
deriving DecidableEq

namespace CorrectedTCOAnalyzer

/-- `self.ownership_years = 5`. -/
def ownership_years : ℚ := 5

/-- The all-zero dictionary returned by the `except` branch of
`calculate_tco` (lines 152-160). -/
def zero_result : TcoResult := ⟨0, 0, 0, 0, 0⟩

/-- Reading a required column: an absent field raises a `KeyError`
naming the column. -/
def require (name : String) : Option ℚ → Except String ℚ
  | some v => Except.ok v
  | none => Except.error name

/-- The `try` body of `calculate_tco` (`tco_analysis_corrected.py`
lines 123-151): reads the six cost columns (an absent required column
raises), treats a missing other-cost as zero, sums fuel + maintenance +
tax/insurance + other (the depreciation column is read but not added),
defaults a missing residual rate to 0.3, and bases the residual value on
the initial investment. -/
def calculate_tco_checked (row : TcoRow) : Except String TcoResult := do
  let initial_cost ← require "KeyError: 초기투자비용_만원" row.initial_cost
  let annual_fuel ← require "KeyError: 연간연료비_만원" row.annual_fuel
  let annual_maintenance ← require "KeyError: 연간유지보수비_만원" row.annual_maintenance
  let annual_tax_insurance ← require "KeyError: 연간세금보험_만원" row.annual_tax_insurance
  let _annual_depreciation ← require "KeyError: 연간감가상각_만원" row.annual_depreciation
  let annual_other := row.annual_other.getD 0
  let annual_operating_cost :=
    annual_fuel + annual_maintenance + annual_tax_insurance + annual_other
  let total_operating_cost := annual_operating_cost * ownership_years
  let residual_rate := row.residual_rate.getD 0.3
  let residual_value := initial_cost * residual_rate
  let total_tco := initial_cost + total_operating_cost - residual_value
  pure ⟨annual_operating_cost, total_operating_cost, residual_value,
    total_tco, total_tco / ownership_years⟩

/-- `calculate_tco` (lines 121-160): the `try` body, with every exception
caught, printed, and replaced by the all-zero dictionary. -/
def calculate_tco (row : TcoRow) : TcoResult :=
  match calculate_tco_checked row with
  | Except.ok res => res
  | Except.error _ => zero_result

end CorrectedTCOAnalyzer

namespace DetailedTCOAnalyzer

/-- `calculate_tco` of `tco_analysis_detailed.py` (lines 49-88): the body
is identical to the corrected analyzer's, including the catch-all
exception handler returning zeros. -/
def calculate_tco (row : TcoRow) : TcoResult :=
  match CorrectedTCOAnalyzer.calculate_tco_checked row with
  | Except.ok res => res
  | Except.error _ => CorrectedTCOAnalyzer.zero_result

end DetailedTCOAnalyzer

/-- A concrete fully-populated row: purchase 1000, subsidy 500 (so initial
investment 500), fuel 1, maintenance 2, tax/insurance 3, depreciation 100,
other 4, residual rate 2/5. -/
def sampleRow : TcoRow := TcoRow.mk_full 1000 500 500 1 2 3 100 4 (2/5)

/-- A concrete ICE record: purchase 1000, no subsidy, each annual component
10, residual rate 2/5. -/
def sampleRecord : VehicleRecord := ⟨1000, 0, 10, 10, 10, 10, 10, 2/5⟩

namespace EmpiricalBasedTCOModel

/-- Default `ev_price_elasticity` from `self.parameters` (-2.5). -/
def ev_price_elasticity : ℚ := -5/2

/-- Default `base_preference` from `self.parameters` (0.30). -/
def base_preference : ℚ := 3/10

/-- Default `market_share_effect` from `self.parameters` (0.15). -/
def market_share_effect : ℚ := 3/20

/-- `calculate_price_elasticity_effect` (`empirical_based_tco_model.py`
lines 50-67): elasticity × (tco gap / vehicle price) × share × (1 - share).
The elasticity is an explicit argument because `self.parameters` is mutable
state (`sensitivity_analysis` rewrites it); its default is
`ev_price_elasticity`. -/
def calculate_price_elasticity_effect
    (elasticity tco_diff vehicle_price current_market_share : ℚ) : ℚ :=
  elasticity * (tco_diff / vehicle_price) * current_market_share *
    (1 - current_market_share)

/-- `calculate_empirical_bev_probability` (lines 69-102), Variant A:
base preference + elasticity effect + market-share effect, clipped to
[0, 1]. The same formula (with constants 0.175 / 0.15) appears inline in
`tco_analysis.py` lines 212-241. -/
def calculate_empirical_bev_probability
    (elasticity base_pref ms_effect tco_diff vehicle_price
      current_market_share : ℚ) : ℚ :=
  let price_elasticity_effect := calculate_price_elasticity_effect
    elasticity tco_diff vehicle_price current_market_share
  let market_share_term := ms_effect * (1 - current_market_share)
  clip (base_pref + price_elasticity_effect + market_share_term) 0 1

end EmpiricalBasedTCOModel

namespace TestLogisticFunction

/-- `current_logistic` (`test_logistic_function.py` lines 22-24),
Variant B: `1 / (1 + exp(tco_diff / 1000))`. -/
noncomputable def current_logistic (tco_diff : ℝ) : ℝ :=
  1 / (1 + Real.exp (tco_diff / 1000))

/-- `improved_logistic` (lines 170-179), Variant C: the logistic threshold
is `vehicle_price * sensitivity_factor`. -/
noncomputable def improved_logistic
    (tco_diff vehicle_price sensitivity_factor : ℝ) : ℝ :=
  let price_threshold := vehicle_price * sensitivity_factor
  1 / (1 + Real.exp (tco_diff / price_threshold))

end TestLogisticFunction

namespace CorrectedTCOAnalyzer

/-- `calculate_base_preference` (`tco_analysis_corrected.py` lines 63-70):
`0.18 + 0.12 × infrastructure_readiness + 0.10 × environmental_concern`,
clipped to [0, 1]. -/
noncomputable def calculate_base_preference
    (infrastructure_readiness environmental_concern : ℝ) : ℝ :=
  clip (0.18 + 0.12 * infrastructure_readiness +
    0.10 * environmental_concern) 0 1

/-- `calculate_uncertainty` (lines 72-76):
`sqrt(range_anxiety² + charging_infrastructure² + technology_uncertainty²)`,
clipped to [0, 1]. -/
noncomputable def calculate_uncertainty
    (range_anxiety charging_infrastructure technology_uncertainty : ℝ) : ℝ :=
  clip (Real.sqrt (range_anxiety ^ 2 + charging_infrastructure ^ 2 +
    technology_uncertainty ^ 2)) 0 1

/-- `calculate_tco_effect` (lines 78-86). The elasticity is an explicit
argument standing for `self.empirical_parameters['ev_price_elasticity']`
(default -2.5). -/
noncomputable def calculate_tco_effect
    (elasticity tco_diff vehicle_price current_market_share : ℝ) : ℝ :=
  elasticity * (tco_diff / vehicle_price) * current_market_share *
    (1 - current_market_share)

/-- `calculate_corrected_bev_probability` (lines 88-119), Variant D:
`clip((base_preference + tco_effect + market_share_effect) × (1 - uncertainty), 0, 1)`.
`elasticity` and `ms_effect` stand for the `self.empirical_parameters`
entries (defaults -2.5 and 0.27). -/
noncomputable def calculate_corrected_bev_probability
    (elasticity ms_effect tco_diff vehicle_price
      infrastructure_readiness environmental_concern
      range_anxiety charging_infrastructure technology_uncertainty
      current_market_share : ℝ) : ℝ :=
  let base_preference :=
    calculate_base_preference infrastructure_readiness environmental_concern
  let tco_effect :=
    calculate_tco_effect elasticity tco_diff vehicle_price current_market_share
  let market_share_term := ms_effect * (1 - current_market_share)
  let uncertainty := calculate_uncertainty range_anxiety
    charging_infrastructure technology_uncertainty
  let raw_probability := base_preference + tco_effect + market_share_term
  clip (raw_probability * (1 - uncertainty)) 0 1

end CorrectedTCOAnalyzer

namespace DetailedTCOAnalyzer

/-- The named intermediate components returned by the detailed analyzer's
probability function. -/
structure NoiseComponents where
  tco_effect : ℝ
  base_preference : ℝ
  uncertainty_combined : ℝ
  uncertainty_noise : ℝ
  combined_effect : ℝ

/-- `sigmoid` (lines 190-191): `1 / (1 + exp(-x))`. -/
noncomputable def sigmoid (x : ℝ) : ℝ :=
  1 / (1 + Real.exp (-x))

/-- `calculate_empirical_bev_probability` of `tco_analysis_detailed.py`
(lines 148-203). The global NumPy generator is modelled explicitly:
`normal seed sigma` is the library's first normal(0, sigma) draw after the
generator is seeded with `seed`, and `next_state` advances the generator.
The function receives the incoming generator state `rng_state`, but the
body calls `np.random.seed(42)` before its single draw, so the draw is
taken at state 42 whatever came in; `current_market_share` is accepted and
never used (as in the source). Returns ((probability, components),
outgoing generator state). -/
noncomputable def calculate_empirical_bev_probability
    (normal : ℕ → ℝ → ℝ) (next_state : ℕ → ℕ) (rng_state : ℕ)
    (tco_diff vehicle_price current_market_share : ℝ) :
    (ℝ × NoiseComponents) × ℕ :=
  let _ := rng_state
  let _ := current_market_share
  let relative_tco_impact := tco_diff / vehicle_price
  let tco_effect := (-5/2) * relative_tco_impact
  let base_preference := 0.18 + 0.12 * 0.5 + 0.10 * 0.6
  let uncertainty_combined :=
    Real.sqrt (0.4 ^ 2 + 0.5 ^ 2 + 0.3 ^ 2)
  let seeded_state : ℕ := 42
  let uncertainty_noise := normal seeded_state uncertainty_combined
  let out_state := next_state seeded_state
  let combined_effect := tco_effect + base_preference + uncertainty_noise
  ((sigmoid combined_effect,
    ⟨tco_effect, base_preference, uncertainty_combined, uncertainty_noise,
      combined_effect⟩), out_state)

end DetailedTCOAnalyzer

/-- Claim C1: for every vehicle-category record with all numeric fields
present, the TCO computation returns a breakdown satisfying
total TCO = initial investment + total operating cost - residual value,
with initial investment = purchase cost - subsidy and total operating
cost = annual operating cost * 5, in both the template generator
(`create_tco_template.py`) and the improved analyzer
(`tco_analysis_improved.py`, with its default 5-year horizon). -/
theorem tco_decomposition_all_records :
    ∀ (r : VehicleRecord) (vt : VehicleType),
      CreateTcoTemplate.total_tco r =
        CreateTcoTemplate.initial_investment r +
          CreateTcoTemplate.total_operating_cost r -
          CreateTcoTemplate.residual_value r ∧
      CreateTcoTemplate.initial_investment r = r.purchase_cost - r.subsidy ∧
      CreateTcoTemplate.total_operating_cost r =
        CreateTcoTemplate.annual_operating_cost r * 5 ∧
      ImprovedTCOAnalyzer.total_tco 5 vt r =
        ImprovedTCOAnalyzer.initial_investment r +
          ImprovedTCOAnalyzer.total_operating_cost 5 r -
          ImprovedTCOAnalyzer.residual_value vt r ∧
      ImprovedTCOAnalyzer.initial_investment r = r.purchase_cost - r.subsidy ∧
      ImprovedTCOAnalyzer.total_operating_cost 5 r =
        ImprovedTCOAnalyzer.annual_operating_cost r * 5 := by
  intro r vt
  refine ⟨rfl, rfl, rfl, rfl, rfl, ?_⟩
  norm_num [ImprovedTCOAnalyzer.total_operating_cost]

/-- Claim C2 counterexample: in the corrected analyzer the annual
operating cost of the sample row (fuel 1, maintenance 2, tax/insurance 3,
depreciation 100, other 4) is not the sum of all five components (110):
the depreciation component is left out of the sum. -/
theorem corrected_annual_cost_counterexample :
    (CorrectedTCOAnalyzer.calculate_tco sampleRow).annual_operating_cost ≠
      1 + 2 + 3 + 100 + 4 := by
  show (1 : ℚ) + 2 + 3 + 4 ≠ 1 + 2 + 3 + 100 + 4
  norm_num

/-- Claim C2 (amended): the template generator and the improved analyzer
sum all five annual components, but `calculate_tco` in the corrected and
detailed analyzers sums only fuel + maintenance + tax/insurance + other,
omitting depreciation (the column is read and then unused). -/
theorem annual_operating_cost_components :
    ∀ (r : VehicleRecord) (pc su ic f m t d o rr : ℚ),
      CreateTcoTemplate.annual_operating_cost r =
        r.annual_fuel_cost + r.annual_maintenance + r.annual_tax_insurance +
          r.annual_depreciation + r.annual_other_cost ∧
      ImprovedTCOAnalyzer.annual_operating_cost r =
        r.annual_fuel_cost + r.annual_maintenance + r.annual_tax_insurance +
          r.annual_depreciation + r.annual_other_cost ∧
      (CorrectedTCOAnalyzer.calculate_tco
          (TcoRow.mk_full pc su ic f m t d o rr)).annual_operating_cost =
        f + m + t + o ∧
      (DetailedTCOAnalyzer.calculate_tco
          (TcoRow.mk_full pc su ic f m t d o rr)).annual_operating_cost =
        f + m + t + o := by
  intro r pc su ic f m t d o rr
  exact ⟨rfl, rfl, rfl, rfl⟩

/-- Claim C3 counterexample: for the sample row (purchase 1000, subsidy
500, initial investment 500, residual rate 2/5) the corrected analyzer's
residual value is 500 × 2/5 = 200, not purchase cost × rate = 400: the
base of the multiplication is the subsidy-reduced initial investment. -/
theorem corrected_residual_base_counterexample :
    (CorrectedTCOAnalyzer.calculate_tco sampleRow).residual_value ≠
      1000 * (2/5 : ℚ) := by
  show (500 : ℚ) * (2/5) ≠ 1000 * (2/5)
  norm_num

/-- Claim C3 (amended): the template generator and the improved analyzer
multiply the gross purchase cost by the residual rate, but `calculate_tco`
in the corrected and detailed analyzers multiplies the subsidy-reduced
initial investment by the rate. -/
theorem residual_value_base :
    ∀ (r : VehicleRecord) (vt : VehicleType) (pc su ic f m t d o rr : ℚ),
      CreateTcoTemplate.residual_value r =
        r.purchase_cost * r.residual_value_rate ∧
      ImprovedTCOAnalyzer.residual_value vt r =
        r.purchase_cost * (if vt = VehicleType.ICE then 2/5 else 1/4) ∧
      (CorrectedTCOAnalyzer.calculate_tco
          (TcoRow.mk_full pc su ic f m t d o rr)).residual_value = ic * rr ∧
      (DetailedTCOAnalyzer.calculate_tco
          (TcoRow.mk_full pc su ic f m t d o rr)).residual_value = ic * rr := by
  intro r vt pc su ic f m t d o rr
  exact ⟨rfl, rfl, rfl, rfl⟩

/-- Claim C4 counterexample: for the sample ICE record (purchase 1000,
subsidy 0, annual operating cost 50, residual value 400) the improved
analyzer's 5-year schedule sums to 1250, not its total TCO of 850: the
final year never subtracts the residual value. -/
theorem improved_schedule_sum_counterexample :
    (ImprovedTCOAnalyzer.yearly_schedule 5 sampleRecord).sum ≠
      ImprovedTCOAnalyzer.total_tco 5 VehicleType.ICE sampleRecord := by
  simp only [ImprovedTCOAnalyzer.yearly_schedule, ImprovedTCOAnalyzer.year_tco,
    ImprovedTCOAnalyzer.total_tco, ImprovedTCOAnalyzer.initial_investment,
    ImprovedTCOAnalyzer.total_operating_cost,
    ImprovedTCOAnalyzer.annual_operating_cost,
    ImprovedTCOAnalyzer.residual_value, sampleRecord]
  norm_num [List.range_succ]

/-- Claim C4 (amended): the template generator's schedule has exactly 5
entries following the year-1 / intermediate / final-year policy and sums
exactly to the total TCO; the improved analyzer's `analyze_by_year`
schedule also starts with initial investment + annual operating cost but
gives every later year — including the last — the annual operating cost
alone, so its sum exceeds the total TCO by exactly the residual value. -/
theorem yearly_schedule_round_trip :
    ∀ (r : VehicleRecord) (vt : VehicleType),
      CreateTcoTemplate.yearly_schedule r =
        [CreateTcoTemplate.initial_investment r +
            CreateTcoTemplate.annual_operating_cost r,
          CreateTcoTemplate.annual_operating_cost r,
          CreateTcoTemplate.annual_operating_cost r,
          CreateTcoTemplate.annual_operating_cost r,
          CreateTcoTemplate.annual_operating_cost r -
            CreateTcoTemplate.residual_value r] ∧
      (CreateTcoTemplate.yearly_schedule r).sum =
        CreateTcoTemplate.total_tco r ∧
      ImprovedTCOAnalyzer.yearly_schedule 5 r =
        [r.purchase_cost + ImprovedTCOAnalyzer.annual_operating_cost r -
            r.subsidy,
          ImprovedTCOAnalyzer.annual_operating_cost r,
          ImprovedTCOAnalyzer.annual_operating_cost r,
          ImprovedTCOAnalyzer.annual_operating_cost r,
          ImprovedTCOAnalyzer.annual_operating_cost r] ∧
      (ImprovedTCOAnalyzer.yearly_schedule 5 r).sum =
        ImprovedTCOAnalyzer.total_tco 5 vt r +
          ImprovedTCOAnalyzer.residual_value vt r := by
  intro r vt
  refine ⟨rfl, ?_, rfl, ?_⟩
  · show CreateTcoTemplate.initial_investment r +
      CreateTcoTemplate.annual_operating_cost r +
      (CreateTcoTemplate.annual_operating_cost r +
        (CreateTcoTemplate.annual_operating_cost r +
          (CreateTcoTemplate.annual_operating_cost r +
            (CreateTcoTemplate.annual_operating_cost r -
              CreateTcoTemplate.residual_value r + 0)))) =
      CreateTcoTemplate.total_tco r
    unfold CreateTcoTemplate.total_tco CreateTcoTemplate.total_operating_cost
      CreateTcoTemplate.ownership_years
    ring
  · show r.purchase_cost + ImprovedTCOAnalyzer.annual_operating_cost r -
      r.subsidy +
      (ImprovedTCOAnalyzer.annual_operating_cost r +
        (ImprovedTCOAnalyzer.annual_operating_cost r +
          (ImprovedTCOAnalyzer.annual_operating_cost r +
            (ImprovedTCOAnalyzer.annual_operating_cost r + 0)))) =
      ImprovedTCOAnalyzer.total_tco 5 vt r +
        ImprovedTCOAnalyzer.residual_value vt r
    unfold ImprovedTCOAnalyzer.total_tco
      ImprovedTCOAnalyzer.total_operating_cost
      ImprovedTCOAnalyzer.initial_investment
    push_cast
    ring

lemma variantA_bounds (e b m g p s : ℚ) :
    0 ≤ EmpiricalBasedTCOModel.calculate_empirical_bev_probability e b m g p s ∧
      EmpiricalBasedTCOModel.calculate_empirical_bev_probability e b m g p s ≤ 1 :=
  clip_bounds _ 0 1 (by norm_num)

lemma one_div_one_add_exp_bounds (t : ℝ) :
    0 ≤ 1 / (1 + Real.exp t) ∧ 1 / (1 + Real.exp t) ≤ 1 := by
  have h : (0 : ℝ) < 1 + Real.exp t := by positivity
  constructor
  · positivity
  · rw [div_le_one h]
    linarith [Real.exp_pos t]

lemma variantD_bounds (e m g p ir ec ra ci tu s : ℝ) :
    0 ≤ CorrectedTCOAnalyzer.calculate_corrected_bev_probability
        e m g p ir ec ra ci tu s ∧
      CorrectedTCOAnalyzer.calculate_corrected_bev_probability
        e m g p ir ec ra ci tu s ≤ 1 :=
  clip_bounds _ 0 1 (by norm_num)

/-- Claim C5: for all inputs and all four choice-probability variants —
the additive Variant A, the legacy logistic Variant B, the price-relative
logistic Variant C and the compound Variant D — the returned probability
lies in [0, 1]. -/
theorem probability_bounds_all_variants :
    ∀ (e b m g p s : ℚ) (t gr pr sf de dm dg dp ir ec ra ci tu ds : ℝ),
      (0 ≤ EmpiricalBasedTCOModel.calculate_empirical_bev_probability
          e b m g p s ∧
        EmpiricalBasedTCOModel.calculate_empirical_bev_probability
          e b m g p s ≤ 1) ∧
      (0 ≤ TestLogisticFunction.current_logistic t ∧
        TestLogisticFunction.current_logistic t ≤ 1) ∧
      (0 ≤ TestLogisticFunction.improved_logistic gr pr sf ∧
        TestLogisticFunction.improved_logistic gr pr sf ≤ 1) ∧
      (0 ≤ CorrectedTCOAnalyzer.calculate_corrected_bev_probability
          de dm dg dp ir ec ra ci tu ds ∧
        CorrectedTCOAnalyzer.calculate_corrected_bev_probability
          de dm dg dp ir ec ra ci tu ds ≤ 1) := by
  intro e b m g p s t gr pr sf de dm dg dp ir ec ra ci tu ds
  exact ⟨variantA_bounds e b m g p s,
    one_div_one_add_exp_bounds (t / 1000),
    one_div_one_add_exp_bounds (gr / (pr * sf)),
    variantD_bounds de dm dg dp ir ec ra ci tu ds⟩

lemma tco_effect_antitone {α : Type} [LinearOrderedField α]
    {e p s g1 g2 : α} (he : e < 0) (hp : 0 < p) (hs0 : 0 ≤ s) (hs1 : s ≤ 1)
    (hg : g1 ≤ g2) :
    e * (g2 / p) * s * (1 - s) ≤ e * (g1 / p) * s * (1 - s) := by
  have hdiv : g1 / p ≤ g2 / p := by gcongr
  have h1 : e * (g2 / p) ≤ e * (g1 / p) :=
    mul_le_mul_of_nonpos_left hdiv he.le
  have h2 : e * (g2 / p) * s ≤ e * (g1 / p) * s :=
    mul_le_mul_of_nonneg_right h1 hs0
  exact mul_le_mul_of_nonneg_right h2 (by linarith)

/-- Claim C6: with a negative price elasticity, a positive reference
price and a market share strictly between 0 and 1, both the additive
Variant A and the compound Variant D are non-increasing in the TCO gap
(all other parameters held fixed). -/
theorem probability_monotone_in_tco_gap :
    ∀ (e b m p s g1 g2 : ℚ) (de dm dp ir ec ra ci tu ds dg1 dg2 : ℝ),
      e < 0 → 0 < p → 0 < s → s < 1 → g1 ≤ g2 →
      de < 0 → 0 < dp → 0 < ds → ds < 1 → dg1 ≤ dg2 →
      EmpiricalBasedTCOModel.calculate_empirical_bev_probability
          e b m g2 p s ≤
        EmpiricalBasedTCOModel.calculate_empirical_bev_probability
          e b m g1 p s ∧
      CorrectedTCOAnalyzer.calculate_corrected_bev_probability
          de dm dg2 dp ir ec ra ci tu ds ≤
        CorrectedTCOAnalyzer.calculate_corrected_bev_probability
          de dm dg1 dp ir ec ra ci tu ds := by
  intro e b m p s g1 g2 de dm dp ir ec ra ci tu ds dg1 dg2
  intro he hp hs0 hs1 hg hde hdp hds0 hds1 hdg
  constructor
  · have hte := tco_effect_antitone he hp hs0.le hs1.le hg
    simp only [EmpiricalBasedTCOModel.calculate_empirical_bev_probability,
      EmpiricalBasedTCOModel.calculate_price_elasticity_effect]
    exact clip_mono 0 1 (by linarith)
  · have hte := tco_effect_antitone hde hdp hds0.le hds1.le hdg
    have hU : CorrectedTCOAnalyzer.calculate_uncertainty ra ci tu ≤ 1 := by
      unfold CorrectedTCOAnalyzer.calculate_uncertainty
      exact (clip_bounds _ 0 1 (by norm_num)).2
    simp only [CorrectedTCOAnalyzer.calculate_corrected_bev_probability,
      CorrectedTCOAnalyzer.calculate_tco_effect]
    refine clip_mono 0 1 ?_
    exact mul_le_mul_of_nonneg_right (by linarith) (by linarith)

/-- Witness for C6 at elasticity -1, price 1, market share 1/2, gaps
0 ≤ 1 (and the matching real-valued inputs for Variant D). -/
theorem probability_monotone_in_tco_gap_witness :
    (-1 : ℚ) < 0 ∧ (0 : ℚ) < 1 ∧ (0 : ℚ) < 1/2 ∧ (1/2 : ℚ) < 1 ∧
    (0 : ℚ) ≤ 1 ∧
    (-1 : ℝ) < 0 ∧ (0 : ℝ) < 1 ∧ (0 : ℝ) < 1/2 ∧ (1/2 : ℝ) < 1 ∧
    (0 : ℝ) ≤ 1 ∧
    (EmpiricalBasedTCOModel.calculate_empirical_bev_probability
        (-1) (3/10) (3/20) 1 1 (1/2) ≤
      EmpiricalBasedTCOModel.calculate_empirical_bev_probability
        (-1) (3/10) (3/20) 0 1 (1/2) ∧
      CorrectedTCOAnalyzer.calculate_corrected_bev_probability
        (-1) (27/100) 1 1 (1/2) (3/5) (2/5) (1/2) (3/10) (1/2) ≤
      CorrectedTCOAnalyzer.calculate_corrected_bev_probability
        (-1) (27/100) 0 1 (1/2) (3/5) (2/5) (1/2) (3/10) (1/2)) :=
  ⟨by norm_num, by norm_num, by norm_num, by norm_num, by norm_num,
    by norm_num, by norm_num, by norm_num, by norm_num, by norm_num,
    probability_monotone_in_tco_gap
      (-1) (3/10) (3/20) 1 (1/2) 0 1
      (-1) (27/100) 1 (1/2) (3/5) (2/5) (1/2) (3/10) (1/2) 0 1
      (by norm_num) (by norm_num) (by norm_num) (by norm_num) (by norm_num)
      (by norm_num) (by norm_num) (by norm_num) (by norm_num) (by norm_num)⟩

/-- Claim C7: for every TCO gap and positive reference price, Variant C
with sensitivity factor 1000 / price reduces exactly to Variant B, and
both give probability 1/2 at a zero gap. -/
theorem variantC_generalizes_variantB :
    ∀ (g p : ℝ), 0 < p →
      TestLogisticFunction.improved_logistic g p (1000 / p) =
        TestLogisticFunction.current_logistic g ∧
      TestLogisticFunction.current_logistic 0 = 1/2 ∧
      TestLogisticFunction.improved_logistic 0 p (1000 / p) = 1/2 := by
  intro g p hp
  have hp' : p ≠ 0 := ne_of_gt hp
  have hth : p * (1000 / p) = 1000 := by field_simp
  refine ⟨?_, ?_, ?_⟩
  · simp only [TestLogisticFunction.improved_logistic,
      TestLogisticFunction.current_logistic, hth]
  · simp only [TestLogisticFunction.current_logistic]
    norm_num [Real.exp_zero]
  · simp only [TestLogisticFunction.improved_logistic, hth]
    norm_num [Real.exp_zero]

/-- Witness for C7 at gap 7 and reference price 2000. -/
theorem variantC_generalizes_variantB_witness :
    (0 : ℝ) < 2000 ∧
    (TestLogisticFunction.improved_logistic 7 2000 (1000 / 2000) =
        TestLogisticFunction.current_logistic 7 ∧
      TestLogisticFunction.current_logistic 0 = 1/2 ∧
      TestLogisticFunction.improved_logistic 0 2000 (1000 / 2000) = 1/2) :=
  ⟨by norm_num, variantC_generalizes_variantB 7 2000 (by norm_num)⟩

/-- Claim C8 counterexample: a row lacking the initial-investment (i.e.
purchase-cost derived) column does not fail with a `MissingFieldError`:
the `KeyError` raised inside `calculate_tco` is caught and the all-zero
breakdown is returned to the caller — a silent zero result. -/
theorem missing_required_field_counterexample :
    CorrectedTCOAnalyzer.calculate_tco
        { sampleRow with initial_cost := none } =
      CorrectedTCOAnalyzer.zero_result ∧
    CorrectedTCOAnalyzer.calculate_tco_checked
        { sampleRow with initial_cost := none } =
      Except.error "KeyError: 초기투자비용_만원" :=
  ⟨rfl, rfl⟩

/-- Claim C8 (amended): a record lacking a required cost field (initial
investment or any of the four annual components that are read) makes the
`try` body of `calculate_tco` raise; the catch-all handler replaces the
failure with the all-zero breakdown instead of propagating it. A record
lacking only the other-cost field succeeds with that term treated as zero,
and a record lacking the residual rate succeeds with the rate defaulted to
0.3. The detailed analyzer's `calculate_tco` behaves identically. -/
theorem missing_field_defaults :
    ∀ (pc su ic f m t d o rr : ℚ),
      CorrectedTCOAnalyzer.calculate_tco
          { TcoRow.mk_full pc su ic f m t d o rr with initial_cost := none } =
        CorrectedTCOAnalyzer.zero_result ∧
      CorrectedTCOAnalyzer.calculate_tco
          { TcoRow.mk_full pc su ic f m t d o rr with annual_fuel := none } =
        CorrectedTCOAnalyzer.zero_result ∧
      CorrectedTCOAnalyzer.calculate_tco
          { TcoRow.mk_full pc su ic f m t d o rr with annual_other := none } =
        CorrectedTCOAnalyzer.calculate_tco (TcoRow.mk_full pc su ic f m t d 0 rr) ∧
      CorrectedTCOAnalyzer.calculate_tco
          { TcoRow.mk_full pc su ic f m t d o rr with residual_rate := none } =
        CorrectedTCOAnalyzer.calculate_tco
          (TcoRow.mk_full pc su ic f m t d o 0.3) ∧
      DetailedTCOAnalyzer.calculate_tco (TcoRow.mk_full pc su ic f m t d o rr) =
        CorrectedTCOAnalyzer.calculate_tco (TcoRow.mk_full pc su ic f m t d o rr) := by
  intro pc su ic f m t d o rr
  exact ⟨rfl, rfl, rfl, rfl, rfl⟩

/-- Claim C9 counterexample: Variant A called with the negative reference
price -5000 (and gap 1000, default parameters) does not fail: it returns
the numeric probability 373/800 = 0.46625. -/
theorem nonpositive_price_counterexample :
    EmpiricalBasedTCOModel.calculate_empirical_bev_probability
      (-5/2) (3/10) (3/20) 1000 (-5000) (1/20) = 373/800 := by
  simp only [EmpiricalBasedTCOModel.calculate_empirical_bev_probability,
    EmpiricalBasedTCOModel.calculate_price_elasticity_effect, clip]
  norm_num [min_def, max_def]

/-- Claim C9 (amended): no variant validates the reference price. A zero
or negative price is accepted and the price-dividing variants (A, C, D)
still return a probability in [0, 1] (for a negative price the sign of the
TCO-gap effect simply flips); no `InvalidInputError` exists in the
repository. -/
theorem nonpositive_price_no_validation :
    ∀ (e b m g s p : ℚ) (gr sf de dm dg ir ec ra ci tu ds pr dp : ℝ),
      p < 0 → pr < 0 → dp < 0 →
      (0 ≤ EmpiricalBasedTCOModel.calculate_empirical_bev_probability
          e b m g p s ∧
        EmpiricalBasedTCOModel.calculate_empirical_bev_probability
          e b m g p s ≤ 1) ∧
      (0 ≤ TestLogisticFunction.improved_logistic gr pr sf ∧
        TestLogisticFunction.improved_logistic gr pr sf ≤ 1) ∧
      (0 ≤ CorrectedTCOAnalyzer.calculate_corrected_bev_probability
          de dm dg dp ir ec ra ci tu ds ∧
        CorrectedTCOAnalyzer.calculate_corrected_bev_probability
          de dm dg dp ir ec ra ci tu ds ≤ 1) := by
  intro e b m g s p gr sf de dm dg ir ec ra ci tu ds pr dp hp hpr hdp
  exact ⟨variantA_bounds e b m g p s,
    one_div_one_add_exp_bounds (gr / (pr * sf)),
    variantD_bounds de dm dg dp ir ec ra ci tu ds⟩

/-- Witness for the amended C9 at reference price -1 in each variant. -/
theorem nonpositive_price_no_validation_witness :
    (-1 : ℚ) < 0 ∧ (-1 : ℝ) < 0 ∧
    ((0 ≤ EmpiricalBasedTCOModel.calculate_empirical_bev_probability
        (-5/2) (3/10) (3/20) 1000 (-1) (1/20) ∧
      EmpiricalBasedTCOModel.calculate_empirical_bev_probability
        (-5/2) (3/10) (3/20) 1000 (-1) (1/20) ≤ 1) ∧
    (0 ≤ TestLogisticFunction.improved_logistic 1000 (-1) (1/10) ∧
      TestLogisticFunction.improved_logistic 1000 (-1) (1/10) ≤ 1) ∧
    (0 ≤ CorrectedTCOAnalyzer.calculate_corrected_bev_probability
        (-5/2) (27/100) 1000 (-1) (1/2) (3/5) (2/5) (1/2) (3/10) (1/20) ∧
      CorrectedTCOAnalyzer.calculate_corrected_bev_probability
        (-5/2) (27/100) 1000 (-1) (1/2) (3/5) (2/5) (1/2) (3/10) (1/20) ≤ 1)) :=
  ⟨by norm_num, by norm_num,
    nonpositive_price_no_validation (-5/2) (3/10) (3/20) 1000 (1/20) (-1)
      1000 (1/10) (-5/2) (27/100) 1000 (1/2) (3/5) (2/5) (1/2) (3/10) (1/20)
      (-1) (-1) (by norm_num) (by norm_num) (by norm_num)⟩

/-- Claim C10: the detailed analyzer's sigmoid-with-noise probability is
deterministic despite the noise term. Because the function reseeds the
global generator with the fixed seed 42 before its single normal draw, the
returned probability and component breakdown are independent of the
incoming generator state (so two calls with equal arguments agree), and
the `uncertainty_noise` component equals the generator's first
normal(0, sqrt(0.4² + 0.5² + 0.3²)) draw at seed 42 — the same constant on
every call, regardless of the arguments. -/
theorem detailed_probability_state_independent :
    ∀ (normal : ℕ → ℝ → ℝ) (next_state : ℕ → ℕ) (s1 s2 : ℕ)
      (g p ms g2 p2 ms2 : ℝ),
      (DetailedTCOAnalyzer.calculate_empirical_bev_probability
          normal next_state s1 g p ms).1 =
        (DetailedTCOAnalyzer.calculate_empirical_bev_probability
          normal next_state s2 g p ms).1 ∧
      (DetailedTCOAnalyzer.calculate_empirical_bev_probability
          normal next_state s1 g p ms).1.2.uncertainty_noise =
        normal 42 (Real.sqrt (0.4 ^ 2 + 0.5 ^ 2 + 0.3 ^ 2)) ∧
      (DetailedTCOAnalyzer.calculate_empirical_bev_probability
          normal next_state s1 g p ms).1.2.uncertainty_noise =
        (DetailedTCOAnalyzer.calculate_empirical_bev_probability
          normal next_state s2 g2 p2 ms2).1.2.uncertainty_noise := by
  intro normal next_state s1 s2 g p ms g2 p2 ms2
  exact ⟨rfl, rfl, rfl⟩
